import Mathlib

/-!
Verification of the enbot transaction bot (src/bot.py).

The repository is a single linear conversation state machine over five
states (FAMILY, CATEGORY, AMOUNT, PERIOD, CONTACT) wired to a chat-bot
framework, an append-only SQLite table, and a best-effort notifier.
This file gives a shallow embedding of the data model and of every
handler of `TransactionBot`, together with a dispatcher-level step
function mirroring the `ConversationHandler` wiring in `run`, and proves
the behavioural claims about them.

Modelling conventions:
- Python floats are idealized as exact rationals (`ℚ`); binary64
  rounding, overflow/underflow, the `inf`/`nan` literals and PEP 515
  underscore separators of CPython `float()` are not modelled.
- Telegram message texts produced by the bot are abstracted into the
  `Msg` inductive, which keeps the data interpolated into each message
  but not the surrounding literal text.
- The SQLite table is a list of fully-bound rows; `AUTOINCREMENT` on a
  fresh database assigns `length + 1` to each inserted row.
-/

namespace EnBot

/-! ### Characters and Python string helpers -/

/-- The ASCII whitespace characters stripped by Python `str.strip()` and
ignored around a `float()` literal. -/
def pyIsSpace (c : Char) : Bool :=
  c = ' ' || c = '\t' || c = '\n' || c = '\r' || c = '\x0b' || c = '\x0c'

/-- Python `str.strip()`: remove leading and trailing whitespace. -/
def pyStrip (s : String) : String :=
  ⟨(((s.data.dropWhile pyIsSpace).reverse.dropWhile pyIsSpace).reverse)⟩

/-- Python `str.startswith(pat)`. -/
def pyStartsWith (s pat : String) : Bool :=
  pat.data.isPrefixOf s.data

/-- Helper for `pyRemoveAll`: fuel-indexed left-to-right removal of every
occurrence of `pat`.  The fuel is the length of the scanned list, which
bounds the number of scanning steps. -/
def pyRemoveAllAux (pat : List Char) : Nat → List Char → List Char
  | _, [] => []
  | 0, cs => cs
  | Nat.succ fuel, c :: cs =>
    if pat ≠ [] ∧ pat.isPrefixOf (c :: cs) then
      pyRemoveAllAux pat fuel (List.drop pat.length (c :: cs))
    else
      c :: pyRemoveAllAux pat fuel cs

/-- Python `s.replace(pat, '')`: remove every (non-overlapping,
left-to-right) occurrence of `pat` from `s`.  Used by the
`select_family` / `select_category` handlers, which call
`query.data.replace("family_", "")` and `.replace("category_", "")`. -/
def pyRemoveAll (s pat : String) : String :=
  ⟨pyRemoveAllAux pat.data s.data.length s.data⟩

/-- `text.replace(',', '.')` from `get_amount`: a single-character
replacement, i.e. a character map. -/
def commaToDot (s : String) : String :=
  ⟨s.data.map (fun c => if c = ',' then '.' else c)⟩

/-- Numeric value of a digit character. -/
def digitVal (c : Char) : Nat := c.toNat - 48

/-- Value of a list of digit characters read in base 10. -/
def digitsToNat (cs : List Char) : Nat :=
  cs.foldl (fun acc c => 10 * acc + digitVal c) 0

/-! ### Python `float()` on decimal numerals

`get_amount` calls `float(update.message.text.replace(',', '.'))`.
We model the decimal-numeral fragment of CPython `float()`: optional
surrounding whitespace, an optional sign, an integer part and/or a
fractional part, and an optional decimal exponent.  Values are exact
rationals. -/

/-- Parse the optional exponent suffix (`e`/`E`, optional sign, digits)
and apply it to the already-parsed mantissa; the whole remaining input
must be consumed. -/
def parseExponent (cs : List Char) (mant : ℚ) : Option ℚ :=
  match cs with
  | [] => some mant
  | c :: rest =>
    if c = 'e' ∨ c = 'E' then
      let (negE, rest2) :=
        match rest with
        | '+' :: r => (false, r)
        | '-' :: r => (true, r)
        | r => (false, r)
      let ds := rest2.takeWhile Char.isDigit
      let rest3 := rest2.dropWhile Char.isDigit
      if ds = [] ∨ rest3 ≠ [] then none
      else
        let e : ℤ := if negE then -(digitsToNat ds : ℤ) else (digitsToNat ds : ℤ)
        some (mant * (10 : ℚ) ^ e)
    else none

/-- Parse a full decimal numeral (sign, digits, optional fraction,
optional exponent) from a whitespace-free character list. -/
def pyFloatCore (cs : List Char) : Option ℚ :=
  let (neg, cs1) :=
    match cs with
    | '+' :: r => (false, r)
    | '-' :: r => (true, r)
    | r => (false, r)
  let ip := cs1.takeWhile Char.isDigit
  let cs2 := cs1.dropWhile Char.isDigit
  let (fp, cs3) :=
    match cs2 with
    | '.' :: r => (r.takeWhile Char.isDigit, r.dropWhile Char.isDigit)
    | r => (([] : List Char), r)
  if ip = [] ∧ fp = [] then none
  else
    let mant : ℚ := (digitsToNat ip : ℚ) + (digitsToNat fp : ℚ) / (10 : ℚ) ^ fp.length
    parseExponent cs3 (if neg then -mant else mant)

/-- CPython `float(s)` on decimal numerals, as an exact rational. -/
def pyFloat (s : String) : Option ℚ :=
  pyFloatCore (pyStrip s).data

/-! ### `datetime.strptime(period, '%Y-%m-%d')`

CPython's `_strptime` compiles the format into the regex
`(?P<Y>\d\d\d\d)-(?P<m>1[0-2]|0[1-9]|[1-9])-(?P<d>3[01]|[12]\d|0[1-9]|[1-9])`,
matched at the start of the input, and raises if any input remains after
the match; `datetime(Y, m, d)` then validates the calendar date
(year 1..9999, real day of month).  Each `match*` function below follows
the corresponding regex alternation order. -/

/-- `%Y`: exactly four digits. -/
def matchYear : List Char → Option (Nat × List Char)
  | a :: b :: c :: d :: rest =>
    if a.isDigit ∧ b.isDigit ∧ c.isDigit ∧ d.isDigit then
      some (digitsToNat [a, b, c, d], rest)
    else none
  | _ => none

/-- `%m`: `1[0-2]|0[1-9]|[1-9]`. -/
def matchMonth : List Char → Option (Nat × List Char)
  | '1' :: c :: rest =>
    if '0' ≤ c ∧ c ≤ '2' then some (10 + digitVal c, rest)
    else some (1, c :: rest)
  | ['1'] => some (1, [])
  | '0' :: c :: rest =>
    if '1' ≤ c ∧ c ≤ '9' then some (digitVal c, rest) else none
  | c :: rest =>
    if '2' ≤ c ∧ c ≤ '9' then some (digitVal c, rest) else none
  | [] => none

/-- `%d`: `3[01]|[12]\d|0[1-9]|[1-9]`. -/
def matchDay : List Char → Option (Nat × List Char)
  | '3' :: c :: rest =>
    if c = '0' ∨ c = '1' then some (30 + digitVal c, rest)
    else some (3, c :: rest)
  | ['3'] => some (3, [])
  | '1' :: c :: rest =>
    if c.isDigit then some (10 + digitVal c, rest) else some (1, c :: rest)
  | ['1'] => some (1, [])
  | '2' :: c :: rest =>
    if c.isDigit then some (20 + digitVal c, rest) else some (2, c :: rest)
  | ['2'] => some (2, [])
  | '0' :: c :: rest =>
    if '1' ≤ c ∧ c ≤ '9' then some (digitVal c, rest) else none
  | c :: rest =>
    if '4' ≤ c ∧ c ≤ '9' then some (digitVal c, rest) else none
  | [] => none

/-- Gregorian leap year, as in `datetime`. -/
def isLeap (y : Nat) : Bool := decide (y % 4 = 0 ∧ (y % 100 ≠ 0 ∨ y % 400 = 0))

/-- Number of days of month `m` of year `y`. -/
def daysInMonth (y m : Nat) : Nat :=
  if m = 2 then (if isLeap y then 29 else 28)
  else if m = 4 ∨ m = 6 ∨ m = 9 ∨ m = 11 then 30
  else 31

/-- The validation performed by the `datetime` constructor. -/
def dateOk (y m d : Nat) : Bool :=
  decide (1 ≤ y ∧ y ≤ 9999 ∧ 1 ≤ m ∧ m ≤ 12 ∧ 1 ≤ d ∧ d ≤ daysInMonth y m)

/-- `datetime.strptime(s, '%Y-%m-%d')`: `some (y, m, d)` when it
succeeds, `none` when it raises `ValueError`. -/
def strptimeYmd (s : String) : Option (Nat × Nat × Nat) :=
  match matchYear s.data with
  | none => none
  | some (y, rest1) =>
    match rest1 with
    | '-' :: rest2 =>
      match matchMonth rest2 with
      | none => none
      | some (m, rest3) =>
        match rest3 with
        | '-' :: rest4 =>
          match matchDay rest4 with
          | none => none
          | some (d, rest5) =>
            if rest5 = [] ∧ dateOk y m d then some (y, m, d) else none
        | _ => none
    | _ => none

/-! ### Data model -/

/-- Conversation states (`FAMILY, CATEGORY, AMOUNT, PERIOD, CONTACT = range(5)`).
`ConversationHandler.END` is modelled as `none : Option ConvState`. -/
inductive ConvState where
  | FAMILY
  | CATEGORY
  | AMOUNT
  | PERIOD
  | CONTACT
deriving Repr, DecidableEq

/-- The transient per-conversation draft (`context.user_data`): each
field is `none` while the corresponding key is absent. -/
structure Draft where
  family : Option String := none
  category : Option String := none
  amount : Option ℚ := none
  period : Option String := none
deriving Repr, DecidableEq

/-- The draft after `context.user_data.clear()` (and at conversation
start on a fresh context). -/
def clearedDraft : Draft := {}

/-- The submitting Telegram user (`update.effective_user`): `username`
is `none` when the account has no username. -/
structure UserInfo where
  id : Nat
  username : Option String
deriving Repr, DecidableEq

/-- A row of the `transactions` table.  All columns of the single
`INSERT` statement are bound, so the row type is total; `created_at` is
server-assigned and not modelled. -/
structure Row where
  id : Nat
  family : String
  category : String
  amount : ℚ
  period : String
  contact : String
  user_id : Nat
  username : String
deriving Repr, DecidableEq

/-- Python `update.effective_user.username or 'N/A'`: falsy values
(`None` and the empty string) are replaced by the sentinel. -/
def pyOrNA (u : Option String) : String :=
  match u with
  | none => "N/A"
  | some s => if s = "" then "N/A" else s

/-- Outbound messages, abstracted from the literal Telegram texts but
keeping the data interpolated into each of them.  `rejected`,
`cancelled`, `retryAmount`, `retryPeriod` and `startQuery` are fixed
texts; `notifyFail contact` is the delivery-failure warning naming the
contact; `notifyContact contact` is the notification sent to the contact
itself. -/
inductive Msg where
  | startQuery
  | rejected
  | cancelled
  | retryAmount
  | retryPeriod
  | promptCategory (family : String)
  | promptAmount (family category : String)
  | promptPeriod (family category : String) (amount : ℚ)
  | promptContact (family category : String) (amount : ℚ) (period : String)
  | notifyContact (contact : String)
  | notifyFail (contact : String)
  | confirm (family category : String) (amount : ℚ) (period contact : String)
deriving Repr, DecidableEq

/-! ### Handlers of `TransactionBot`

Each handler returns the updated draft, the conversation state it
returns (`none` = `ConversationHandler.END`), and the messages it sends.
Where a handler's success branch reads a draft key that may be absent,
the model follows CPython: the assignments executed before the failing
read are kept, the uncaught `KeyError` aborts the handler, and the
framework leaves the conversation state unchanged. -/

/-- `is_authorized`: `True` when `ALLOWED_GROUP_ID` is unset (or set to
the falsy empty string), otherwise a string comparison of the chat id. -/
def is_authorized (allowed_group_id : Option String) (chat_id : String) : Bool :=
  match allowed_group_id with
  | none => true
  | some g => if g = "" then true else chat_id = g

/-- `start`: authorization check, then the family keyboard and state
`FAMILY`; unauthorized callers get the fixed rejection and `END`. -/
def start (allowed_group_id : Option String) (chat_id : String) :
    Option ConvState × List Msg :=
  if is_authorized allowed_group_id chat_id then
    (some ConvState.FAMILY, [Msg.startQuery])
  else
    (none, [Msg.rejected])

/-- `select_family`: store `query.data.replace("family_", "")` and
advance to `CATEGORY`. -/
def select_family (d : Draft) (data : String) :
    Draft × Option ConvState × List Msg :=
  let family := pyRemoveAll data "family_"
  ({ d with family := some family }, some ConvState.CATEGORY,
    [Msg.promptCategory family])

/-- `select_category`: store `query.data.replace("category_", "")` and
advance to `AMOUNT`.  The prompt reads `user_data['family']`; if that
key is absent the `KeyError` aborts the handler after the store and the
state stays `CATEGORY`. -/
def select_category (d : Draft) (data : String) :
    Draft × Option ConvState × List Msg :=
  let category := pyRemoveAll data "category_"
  match d.family with
  | some f =>
    ({ d with category := some category }, some ConvState.AMOUNT,
      [Msg.promptAmount f category])
  | none =>
    ({ d with category := some category }, some ConvState.CATEGORY, [])

/-- `get_amount`: parse `float(text.replace(',', '.'))`; `ValueError`
(unparsable text, or an explicit raise on `amount <= 0`) is caught and
re-prompts in `AMOUNT`; on success the amount is stored and the state
advances to `PERIOD`.  The success prompt reads `user_data['family']`
and `user_data['category']`; if either is absent the `KeyError` aborts
the handler after the store and the state stays `AMOUNT`. -/
def get_amount (d : Draft) (text : String) :
    Draft × Option ConvState × List Msg :=
  match pyFloat (commaToDot text) with
  | none => (d, some ConvState.AMOUNT, [Msg.retryAmount])
  | some amount =>
    if amount ≤ 0 then (d, some ConvState.AMOUNT, [Msg.retryAmount])
    else
      match d.family, d.category with
      | some f, some c =>
        ({ d with amount := some amount }, some ConvState.PERIOD,
          [Msg.promptPeriod f c amount])
      | _, _ =>
        ({ d with amount := some amount }, some ConvState.AMOUNT, [])

/-- `get_period`: strip the text, validate it with
`datetime.strptime(period, '%Y-%m-%d')`; `ValueError` re-prompts in
`PERIOD`; on success the stripped string is stored and the state
advances to `CONTACT`.  The success prompt reads `user_data['family']`,
`['category']` and `['amount']`; if any is absent the `KeyError` aborts
the handler after the store and the state stays `PERIOD`. -/
def get_period (d : Draft) (text : String) :
    Draft × Option ConvState × List Msg :=
  let period := pyStrip text
  match strptimeYmd period with
  | none => (d, some ConvState.PERIOD, [Msg.retryPeriod])
  | some _ =>
    match d.family, d.category, d.amount with
    | some f, some c, some a =>
      ({ d with period := some period }, some ConvState.CONTACT,
        [Msg.promptContact f c a period])
    | _, _, _ =>
      ({ d with period := some period }, some ConvState.PERIOD, [])

/-- `contact.startswith('@')` normalization in `get_contact`. -/
def normalizeContact (s : String) : String :=
  if pyStartsWith s "@" then s else "@" ++ s

/-- `save_transaction`: the single `INSERT` into `transactions`.
`AUTOINCREMENT` on a database that only ever receives these appends
assigns `length + 1`. -/
def save_transaction (db : List Row) (family category : String) (amount : ℚ)
    (period contact : String) (user : UserInfo) : List Row :=
  db ++ [{ id := db.length + 1, family := family, category := category,
           amount := amount, period := period, contact := contact,
           user_id := user.id, username := pyOrNA user.username }]

/-- `send_notification`: one best-effort send to the contact; the
`except` branch warns the submitting user, naming the contact.  The
external delivery outcome is the oracle `ok`. -/
def send_notification (contact : String) (ok : Bool) : List Msg :=
  if ok then [Msg.notifyContact contact] else [Msg.notifyFail contact]

/-- `get_contact`: strip and normalize the contact, save the
transaction, attempt the notification, confirm, clear the draft and
`END`.  `save_transaction` reads the four draft keys before executing
the `INSERT`: if any is absent the `KeyError` fires before the insert,
the handler aborts (`none`) with the database untouched and the state
unchanged. -/
def get_contact (d : Draft) (user : UserInfo) (db : List Row) (text : String)
    (ok : Bool) : Option (Draft × Option ConvState × List Row × List Msg) :=
  let contact := normalizeContact (pyStrip text)
  match d.family, d.category, d.amount, d.period with
  | some f, some c, some a, some p =>
    let db2 := save_transaction db f c a p contact user
    some (clearedDraft, none, db2,
      send_notification contact ok ++ [Msg.confirm f c a p contact])
  | _, _, _, _ => none

/-- `cancel`: fixed reply, `user_data.clear()`, `END`. -/
def cancel : Draft × Option ConvState × List Msg :=
  (clearedDraft, none, [Msg.cancelled])

/-! ### The dispatcher (`run`)

`run` wires a `ConversationHandler` with entry point `/start`, one
handler per state (callback handlers for `FAMILY`/`CATEGORY` gated by
the `^family_` / `^category_` patterns, text-message handlers excluding
commands for the three text states) and the `/cancel` fallback.  With
the default `allow_reentry=False`, entry points fire only when no
conversation is active, and the fallback fires in any active state whose
state handlers do not match the update.  An update matched by no handler
leaves the system unchanged; a handler aborted by an uncaught exception
leaves the conversation state unchanged. -/

/-- The whole system: active conversation state (`none` when no
conversation is live), the per-conversation draft, and the database. -/
structure Sys where
  conv : Option ConvState
  draft : Draft
  db : List Row
deriving Repr, DecidableEq

/-- Inbound updates: the `/start` command (with the originating chat
id), the `/cancel` command, a button-press callback, and a non-command
text message (with the submitting user and the external notifier's
outcome for the one send it may trigger). -/
inductive Incoming where
  | startCmd (chat_id : String)
  | cancelCmd
  | callback (data : String)
  | textMsg (text : String) (user : UserInfo) (notifyOk : Bool)
deriving Repr, DecidableEq

/-- One dispatch of an inbound update, given the configured
`ALLOWED_GROUP_ID`. -/
def step (cfg : Option String) (sys : Sys) (inp : Incoming) : Sys × List Msg :=
  match sys.conv with
  | none =>
    match inp with
    | Incoming.startCmd chat_id =>
      let r := start cfg chat_id
      ({ sys with conv := r.1 }, r.2)
    | _ => (sys, [])
  | some st =>
    match inp with
    | Incoming.cancelCmd =>
      let r := cancel
      ({ sys with draft := r.1, conv := r.2.1 }, r.2.2)
    | Incoming.callback data =>
      match st with
      | ConvState.FAMILY =>
        if pyStartsWith data "family_" then
          let r := select_family sys.draft data
          ({ sys with draft := r.1, conv := r.2.1 }, r.2.2)
        else (sys, [])
      | ConvState.CATEGORY =>
        if pyStartsWith data "category_" then
          let r := select_category sys.draft data
          ({ sys with draft := r.1, conv := r.2.1 }, r.2.2)
        else (sys, [])
      | _ => (sys, [])
    | Incoming.textMsg text user ok =>
      match st with
      | ConvState.AMOUNT =>
        let r := get_amount sys.draft text
        ({ sys with draft := r.1, conv := r.2.1 }, r.2.2)
      | ConvState.PERIOD =>
        let r := get_period sys.draft text
        ({ sys with draft := r.1, conv := r.2.1 }, r.2.2)
      | ConvState.CONTACT =>
        match get_contact sys.draft user sys.db text ok with
        | some r => ({ conv := r.2.1, draft := r.1, db := r.2.2.1 }, r.2.2.2)
        | none => (sys, [])
      | _ => (sys, [])
    | Incoming.startCmd _ => (sys, [])

/-- States reachable from a fresh process (no active conversation, empty
draft, fresh database). -/
inductive Reachable (cfg : Option String) : Sys → Prop where
  | init : Reachable cfg ⟨none, clearedDraft, []⟩
  | next : ∀ {s : Sys} (inp : Incoming), Reachable cfg s →
      Reachable cfg (step cfg s inp).1

/-! ### Spec-side date definitions

`specStrictDate` follows the spec's words for the period step: the
string "exactly matches the four-digit-year/two-digit-month/two-digit-day
pattern YYYY-MM-DD and denotes a real calendar date".  It is compared
against the source-derived `strptimeYmd`. -/

/-- Modelled from the spec: exact ten-character `YYYY-MM-DD` shape
(four digit year, two digit month, two digit day) denoting a real
calendar date. -/
def specStrictDate (s : String) : Bool :=
  match s.data with
  | [y1, y2, y3, y4, h1, m1, m2, h2, d1, d2] =>
    y1.isDigit && y2.isDigit && y3.isDigit && y4.isDigit &&
    (h1 == '-') && m1.isDigit && m2.isDigit && (h2 == '-') &&
    d1.isDigit && d2.isDigit &&
    dateOk (digitsToNat [y1, y2, y3, y4]) (digitsToNat [m1, m2])
      (digitsToNat [d1, d2])
  | _ => false

/-- The two zero-padded decimal digits of `n < 100`. -/
def two_digits (n : Nat) : List Char := [Nat.digitChar (n / 10), Nat.digitChar (n % 10)]

/-- The four zero-padded decimal digits of `n < 10000`. -/
def four_digits (n : Nat) : List Char :=
  [Nat.digitChar (n / 1000), Nat.digitChar (n / 100 % 10),
   Nat.digitChar (n / 10 % 10), Nat.digitChar (n % 10)]

/-- The canonical zero-padded `YYYY-MM-DD` rendering of a date. -/
def fmtYmd (y m d : Nat) : String :=
  ⟨four_digits y ++ '-' :: (two_digits m ++ '-' :: two_digits d)⟩

/-! ### Supporting lemmas -/

theorem digitChar_isDigit (k : Nat) (h : k ≤ 9) : (Nat.digitChar k).isDigit = true := by
  interval_cases k <;> decide

theorem digitVal_digitChar (k : Nat) (h : k ≤ 9) : digitVal (Nat.digitChar k) = k := by
  interval_cases k <;> decide

theorem pyIsSpace_digitChar (k : Nat) (h : k ≤ 9) : pyIsSpace (Nat.digitChar k) = false := by
  interval_cases k <;> decide

theorem matchYear_four_digits (y : Nat) (hy : y ≤ 9999) (rest : List Char) :
    matchYear (four_digits y ++ rest) = some (y, rest) := by
  have h1 : y / 1000 ≤ 9 := by omega
  have h2 : y / 100 % 10 ≤ 9 := by omega
  have h3 : y / 10 % 10 ≤ 9 := by omega
  have h4 : y % 10 ≤ 9 := by omega
  show matchYear (Nat.digitChar (y / 1000) :: Nat.digitChar (y / 100 % 10) ::
    Nat.digitChar (y / 10 % 10) :: Nat.digitChar (y % 10) :: rest) = some (y, rest)
  rw [matchYear]
  rw [if_pos ⟨digitChar_isDigit _ h1, digitChar_isDigit _ h2,
      digitChar_isDigit _ h3, digitChar_isDigit _ h4⟩]
  simp [digitsToNat, digitVal_digitChar _ h1, digitVal_digitChar _ h2,
    digitVal_digitChar _ h3, digitVal_digitChar _ h4]
  omega

theorem matchMonth_two_digits (m : Nat) (h1 : 1 ≤ m) (h2 : m ≤ 12) (rest : List Char) :
    matchMonth (two_digits m ++ rest) = some (m, rest) := by
  interval_cases m <;> rfl

theorem matchDay_two_digits (d : Nat) (h1 : 1 ≤ d) (h2 : d ≤ 31) (rest : List Char) :
    matchDay (two_digits d ++ rest) = some (d, rest) := by
  interval_cases d <;> rfl

theorem daysInMonth_le_31 (y m : Nat) : daysInMonth y m ≤ 31 := by
  unfold daysInMonth
  split_ifs <;> omega

/-- Every real calendar date, rendered in canonical zero-padded
`YYYY-MM-DD` form, is accepted by `strptime` and parsed to itself. -/
theorem strptimeYmd_fmtYmd (y m d : Nat) (h : dateOk y m d = true) :
    strptimeYmd (fmtYmd y m d) = some (y, m, d) := by
  have hb := of_decide_eq_true h
  obtain ⟨hy1, hy2, hm1, hm2, hd1, hd2⟩ := hb
  have hd31 : d ≤ 31 := le_trans hd2 (daysInMonth_le_31 y m)
  have hdata : (fmtYmd y m d).data
      = four_digits y ++ '-' :: (two_digits m ++ '-' :: two_digits d) := rfl
  have hd' : matchDay (two_digits d) = some (d, []) := by
    have := matchDay_two_digits d hd1 hd31 []
    rwa [List.append_nil] at this
  simp only [strptimeYmd, hdata, matchYear_four_digits y hy2,
    matchMonth_two_digits m hm1 hm2, hd', h, and_true, if_pos]

theorem dropWhile_eq_self_of_forall {p : Char → Bool} {l : List Char}
    (h : ∀ c ∈ l, p c = false) : l.dropWhile p = l := by
  cases l with
  | nil => rfl
  | cons c cs => simp [List.dropWhile, h c (List.mem_cons_self c cs)]

theorem dropWhile_eq_nil_of_forall {p : Char → Bool} {l : List Char}
    (h : ∀ c ∈ l, p c = true) : l.dropWhile p = [] := by
  induction l with
  | nil => rfl
  | cons c cs ih =>
    rw [List.dropWhile_cons, if_pos (by simp [h c (List.mem_cons_self c cs)])]
    exact ih (fun x hx => h x (List.mem_cons_of_mem c hx))

/-- Stripping a string with no whitespace characters is the identity. -/
theorem pyStrip_eq_self {s : String} (h : ∀ c ∈ s.data, pyIsSpace c = false) :
    pyStrip s = s := by
  obtain ⟨l⟩ := s
  show (⟨((l.dropWhile pyIsSpace).reverse.dropWhile pyIsSpace).reverse⟩ : String) = ⟨l⟩
  rw [dropWhile_eq_self_of_forall h,
    dropWhile_eq_self_of_forall (fun c hc => h c (List.mem_reverse.mp hc)),
    List.reverse_reverse]

/-- Stripping a whitespace-only string gives the empty string. -/
theorem pyStrip_blank {s : String} (h : ∀ c ∈ s.data, pyIsSpace c = true) :
    pyStrip s = "" := by
  obtain ⟨l⟩ := s
  show (⟨((l.dropWhile pyIsSpace).reverse.dropWhile pyIsSpace).reverse⟩ : String) = ""
  rw [dropWhile_eq_nil_of_forall h]
  rfl

/-- The outcome of the whole `CONTACT` step on a complete draft: one row
appended, notification attempt, confirmation, draft cleared,
conversation ended. -/
theorem step_contact_eq (cfg : Option String) (sys : Sys) (f c : String) (a : ℚ)
    (p text : String) (user : UserInfo) (ok : Bool)
    (hconv : sys.conv = some ConvState.CONTACT)
    (hd : sys.draft = ⟨some f, some c, some a, some p⟩) :
    step cfg sys (Incoming.textMsg text user ok) =
      (⟨none, clearedDraft,
        save_transaction sys.db f c a p (normalizeContact (pyStrip text)) user⟩,
       send_notification (normalizeContact (pyStrip text)) ok ++
         [Msg.confirm f c a p (normalizeContact (pyStrip text))]) := by
  simp [step, hconv, hd, get_contact]

/-- Any dispatch either leaves the database untouched or appends exactly
the single row of `save_transaction`. -/
theorem step_db (cfg : Option String) (sys : Sys) (inp : Incoming) :
    (step cfg sys inp).1.db = sys.db ∨
    ∃ f c a p contact user,
      (step cfg sys inp).1.db = save_transaction sys.db f c a p contact user := by
  obtain ⟨cv, dr, db⟩ := sys
  cases cv with
  | none => cases inp <;> simp [step]
  | some st =>
    cases inp with
    | startCmd chat => left; rfl
    | cancelCmd => left; rfl
    | callback data =>
      cases st <;> first
        | (left; rfl)
        | (simp only [step]; split <;> left <;> rfl)
    | textMsg text user ok =>
      cases st with
      | AMOUNT => left; rfl
      | PERIOD => left; rfl
      | CONTACT =>
        rcases hf : dr.family with _ | f
        · left; simp [step, get_contact, hf]
        rcases hc : dr.category with _ | c
        · left; simp [step, get_contact, hf, hc]
        rcases ha : dr.amount with _ | a
        · left; simp [step, get_contact, hf, hc, ha]
        rcases hp : dr.period with _ | p
        · left; simp [step, get_contact, hf, hc, ha, hp]
        · right
          exact ⟨f, c, a, p, normalizeContact (pyStrip text), user,
            by simp [step, get_contact, hf, hc, ha, hp]⟩
      | FAMILY => left; rfl
      | CATEGORY => left; rfl

theorem pyOrNA_ne_empty (u : Option String) : pyOrNA u ≠ "" := by
  cases u with
  | none => decide
  | some s =>
    show (if s = "" then "N/A" else s) ≠ ""
    split
    · decide
    · assumption

/-- `save_transaction` preserves the store invariant: ids are assigned
positionally (`i + 1` at index `i`) and the requester name column is
never empty. -/
theorem save_transaction_invariant (db : List Row) (f c : String) (a : ℚ)
    (p ct : String) (u : UserInfo)
    (ih1 : ∀ i (hi : i < db.length), (db.get ⟨i, hi⟩).id = i + 1)
    (ih2 : ∀ r ∈ db, r.username ≠ "") :
    (∀ i (hi : i < (save_transaction db f c a p ct u).length),
        ((save_transaction db f c a p ct u).get ⟨i, hi⟩).id = i + 1) ∧
    (∀ r ∈ save_transaction db f c a p ct u, r.username ≠ "") := by
  constructor
  · intro i hi
    have hlen : (save_transaction db f c a p ct u).length = db.length + 1 := by
      simp [save_transaction]
    by_cases hlt : i < db.length
    · have hget : (save_transaction db f c a p ct u).get ⟨i, hi⟩
          = db.get ⟨i, hlt⟩ := List.get_append i hlt
      rw [hget]
      exact ih1 i hlt
    · have hieq : i = db.length := by omega
      subst hieq
      have hget : (save_transaction db f c a p ct u).get ⟨db.length, hi⟩
          = ⟨db.length + 1, f, c, a, p, ct, u.id, pyOrNA u.username⟩ :=
        List.get_of_append rfl rfl
      rw [hget]
  · intro r hr
    rcases List.mem_append.mp hr with h1 | h2
    · exact ih2 r h1
    · rw [List.mem_singleton] at h2
      rw [h2]
      exact pyOrNA_ne_empty u.username

/-- The store invariant holds in every reachable state. -/
theorem reachable_db_invariant {cfg : Option String} {s : Sys}
    (h : Reachable cfg s) :
    (∀ i (hi : i < s.db.length), (s.db.get ⟨i, hi⟩).id = i + 1) ∧
    (∀ r ∈ s.db, r.username ≠ "") := by
  induction h with
  | init =>
    exact ⟨fun i hi => absurd hi (by simp), fun r hr => absurd hr (by simp)⟩
  | next inp h ih =>
    obtain ⟨ih1, ih2⟩ := ih
    rcases step_db cfg _ inp with heq | ⟨f, c, a, p, ct, u, heq⟩
    · rw [heq]; exact ⟨ih1, ih2⟩
    · rw [heq]
      exact save_transaction_invariant _ f c a p ct u ih1 ih2

/-- No character of a rendered `YYYY-MM-DD` string is whitespace. -/
theorem fmtYmd_no_space (y m d : Nat) (hy : y ≤ 9999) (hm : m ≤ 12)
    (hd : d ≤ 31) : ∀ ch ∈ (fmtYmd y m d).data, pyIsSpace ch = false := by
  intro ch hch
  have hch' : ch ∈ ([Nat.digitChar (y / 1000), Nat.digitChar (y / 100 % 10),
      Nat.digitChar (y / 10 % 10), Nat.digitChar (y % 10)] ++
      '-' :: ([Nat.digitChar (m / 10), Nat.digitChar (m % 10)] ++
        '-' :: [Nat.digitChar (d / 10), Nat.digitChar (d % 10)])) := hch
  fin_cases hch' <;> first
    | exact pyIsSpace_digitChar _ (by omega)
    | rfl

/-! ### Claims -/

/-- C1: In the AMOUNT state, if the input string (after replacing a
decimal comma with a decimal point) parses as a strictly positive
number, `get_amount` stores that value in the draft and advances to
PERIOD; if it parses to zero or a negative number, or does not parse,
the step re-prompts and the state remains AMOUNT.  The draft carries the
family and category collected by the two preceding steps. -/
theorem amount_step_correct (d : Draft) (f c : String) (s : String)
    (hf : d.family = some f) (hc : d.category = some c) :
    (∀ a : ℚ, pyFloat (commaToDot s) = some a → 0 < a →
        get_amount d s
          = ({ d with amount := some a }, some ConvState.PERIOD,
             [Msg.promptPeriod f c a])) ∧
    (∀ a : ℚ, pyFloat (commaToDot s) = some a → a ≤ 0 →
        get_amount d s = (d, some ConvState.AMOUNT, [Msg.retryAmount])) ∧
    (pyFloat (commaToDot s) = none →
        get_amount d s = (d, some ConvState.AMOUNT, [Msg.retryAmount])) := by
  refine ⟨?_, ?_, ?_⟩
  · intro a ha hpos
    simp [get_amount, ha, hf, hc, hpos.not_le]
  · intro a ha hle
    simp [get_amount, ha, hle]
  · intro h
    simp [get_amount, h]

/-- C1 witness: the amount text `"25,50"` is parsed to `25.50` and
advances a draft holding family and category to PERIOD. -/
theorem amount_step_correct_witness :
    get_amount ⟨some "Famiglia Rossi", some "Quota Mensile", none, none⟩ "25,50"
      = (⟨some "Famiglia Rossi", some "Quota Mensile", some (51 / 2 : ℚ), none⟩,
         some ConvState.PERIOD,
         [Msg.promptPeriod "Famiglia Rossi" "Quota Mensile" (51 / 2 : ℚ)]) := by
  have hparse : pyFloat (commaToDot "25,50") = some (51 / 2 : ℚ) := by
    have h : pyFloat (commaToDot "25,50")
        = some ((25 : ℚ) + (50 : ℚ) / (10 : ℚ) ^ (2 : Nat)) := by
      simp +decide [pyFloat, commaToDot, pyStrip, pyFloatCore, parseExponent,
        digitsToNat, digitVal, List.takeWhile, List.dropWhile, pyIsSpace]
    rw [h]
    norm_num
  exact (amount_step_correct
      ⟨some "Famiglia Rossi", some "Quota Mensile", none, none⟩
      "Famiglia Rossi" "Quota Mensile" "25,50" rfl rfl).1
      (51 / 2 : ℚ) hparse (by norm_num)

/-- C6: contact normalization is idempotent: identifiers already
starting with `@` are unchanged, all others get exactly one `@`
prepended, and normalizing twice equals normalizing once. -/
theorem contact_normalization_idempotent (s : String) :
    (pyStartsWith s "@" = true → normalizeContact s = s) ∧
    (pyStartsWith s "@" = false → normalizeContact s = "@" ++ s) ∧
    normalizeContact (normalizeContact s) = normalizeContact s := by
  have hpre : pyStartsWith ("@" ++ s) "@" = true := by
    simp [pyStartsWith, String.data_append]
  refine ⟨?_, ?_, ?_⟩
  · intro h; simp [normalizeContact, h]
  · intro h; simp [normalizeContact, h]
  · by_cases h : pyStartsWith s "@" = true
    · simp [normalizeContact, h]
    · have h' : pyStartsWith s "@" = false := by simpa using h
      simp [normalizeContact, h', hpre]

/-- C6 witness: `"mario"` normalizes to `"@mario"`, `"@mario"` is left
unchanged, and renormalizing `normalizeContact "mario"` is a no-op. -/
theorem contact_normalization_idempotent_witness :
    normalizeContact "mario" = "@mario" ∧
    normalizeContact "@mario" = "@mario" ∧
    normalizeContact (normalizeContact "mario") = normalizeContact "mario" := by
  refine ⟨?_, ?_, (contact_normalization_idempotent "mario").2.2⟩
  · have h := (contact_normalization_idempotent "mario").2.1 (by decide)
    rw [h]
    decide
  · exact (contact_normalization_idempotent "@mario").1 (by decide)

/-- C7: `is_authorized` is true when no allowed-chat restriction is
configured, and otherwise true exactly when the originating chat id
equals the configured id; an unauthorized `/start` gets the fixed
rejection message and no conversation begins.  (An `ALLOWED_GROUP_ID`
set to the empty string is falsy in Python and counts as unconfigured.) -/
theorem authorization_correct (cfg : Option String) (chat g : String) (sys : Sys)
    (hs : sys.conv = none) :
    (cfg = none → is_authorized cfg chat = true) ∧
    (cfg = some g → g ≠ "" → (is_authorized cfg chat = true ↔ chat = g)) ∧
    (is_authorized cfg chat = false →
        step cfg sys (Incoming.startCmd chat) = (sys, [Msg.rejected])) := by
  refine ⟨?_, ?_, ?_⟩
  · intro h; simp [is_authorized, h]
  · intro h hne
    simp [is_authorized, h, hne]
  · intro h
    obtain ⟨cv, dr, db⟩ := sys
    simp only [Sys.conv] at hs
    subst hs
    simp [step, start, h]

/-- C7 witness: with allowed id `"12345"`, chat `"999"` is rejected by
the entry step and the system is unchanged. -/
theorem authorization_correct_witness :
    step (some "12345") ⟨none, clearedDraft, []⟩ (Incoming.startCmd "999")
      = (⟨none, clearedDraft, []⟩, [Msg.rejected]) := by
  have h := (authorization_correct (some "12345") "999" "12345"
      ⟨none, clearedDraft, []⟩ rfl).2.2 (by decide)
  exact h

/-- C8: a failing amount input (unparsable, zero, or negative) leaves
the whole system unchanged — same draft, same conversation state, no row
inserted — and the only effect is the retry prompt. -/
theorem amount_failure_frame (cfg : Option String) (sys : Sys) (text : String)
    (user : UserInfo) (ok : Bool)
    (hconv : sys.conv = some ConvState.AMOUNT)
    (hfail : pyFloat (commaToDot text) = none ∨
      ∃ a : ℚ, pyFloat (commaToDot text) = some a ∧ a ≤ 0) :
    step cfg sys (Incoming.textMsg text user ok) = (sys, [Msg.retryAmount]) := by
  obtain ⟨cv, dr, db⟩ := sys
  simp only [Sys.conv] at hconv
  subst hconv
  rcases hfail with h | ⟨a, ha, hle⟩
  · simp [step, get_amount, h]
  · simp [step, get_amount, ha, hle]

/-- C8 witness: the amount text `"-5"` parses to the non-positive `-5`,
so the step only re-prompts and the system is untouched. -/
theorem amount_failure_frame_witness :
    step none ⟨some ConvState.AMOUNT,
        ⟨some "Famiglia Rossi", some "Quota Mensile", none, none⟩, []⟩
        (Incoming.textMsg "-5" ⟨42, some "luigi"⟩ true)
      = (⟨some ConvState.AMOUNT,
          ⟨some "Famiglia Rossi", some "Quota Mensile", none, none⟩, []⟩,
         [Msg.retryAmount]) := by
  have hparse : pyFloat (commaToDot "-5") = some (-5 : ℚ) := by
    have h : pyFloat (commaToDot "-5")
        = some (-((5 : ℚ) + (0 : ℚ) / (10 : ℚ) ^ (0 : Nat))) := by
      simp +decide [pyFloat, commaToDot, pyStrip, pyFloatCore, parseExponent,
        digitsToNat, digitVal, List.takeWhile, List.dropWhile, pyIsSpace]
    rw [h]
    norm_num
  exact amount_failure_frame none _ "-5" ⟨42, some "luigi"⟩ true rfl
    (Or.inr ⟨-5, hparse, by norm_num⟩)

/-- C5: in any of the five conversation states, `/cancel` clears every
draft field, ends the conversation, and leaves the database untouched
(zero rows inserted). -/
theorem cancel_discards_draft (cfg : Option String) (sys : Sys) (st : ConvState)
    (h : sys.conv = some st) :
    step cfg sys Incoming.cancelCmd
      = (⟨none, clearedDraft, sys.db⟩, [Msg.cancelled]) := by
  obtain ⟨cv, dr, db⟩ := sys
  simp only [Sys.conv] at h
  subst h
  rfl

/-- C5 witness: cancelling from the PERIOD state with a partially-filled
draft clears it and preserves the one-row database. -/
theorem cancel_discards_draft_witness :
    step none ⟨some ConvState.PERIOD,
        ⟨some "Famiglia Verdi", some "Altro", some (7 : ℚ), none⟩,
        [⟨1, "Famiglia Rossi", "Quota Mensile", (25 : ℚ), "2024-01-15", "@mario",
          42, "luigi"⟩]⟩ Incoming.cancelCmd
      = (⟨none, clearedDraft,
          [⟨1, "Famiglia Rossi", "Quota Mensile", (25 : ℚ), "2024-01-15", "@mario",
            42, "luigi"⟩]⟩, [Msg.cancelled]) :=
  cancel_discards_draft none _ ConvState.PERIOD rfl

/-- C2 counterexample: the period input `"2024-1-15"` does not match the
strict four-digit-year/two-digit-month/two-digit-day pattern, yet
`get_period` accepts it (CPython `strptime` allows unpadded months and
days), stores it, and advances to CONTACT — refuting the claimed
equivalence with the strict pattern. -/
theorem period_strict_pattern_counterexample :
    get_period ⟨some "Famiglia Rossi", some "Quota Mensile", some (25 : ℚ), none⟩
        "2024-1-15"
      = (⟨some "Famiglia Rossi", some "Quota Mensile", some (25 : ℚ),
          some "2024-1-15"⟩,
         some ConvState.CONTACT,
         [Msg.promptContact "Famiglia Rossi" "Quota Mensile" (25 : ℚ) "2024-1-15"]) ∧
    specStrictDate "2024-1-15" = false := by
  constructor
  · rfl
  · rfl

/-- C2 (amended): in the PERIOD state, the step succeeds exactly when
the stripped input is accepted by `strptime('%Y-%m-%d')` — a four-digit
year and a real calendar date, with months and days written with one or
two digits (the leading zero is optional) — in which case the stripped
string is stored and the conversation advances to CONTACT; otherwise it
re-prompts and the state remains PERIOD.  In particular every real
calendar date in strict zero-padded `YYYY-MM-DD` form is accepted. -/
theorem period_step_amended (d : Draft) (f c : String) (a : ℚ) (s : String)
    (hf : d.family = some f) (hc : d.category = some c) (ha : d.amount = some a) :
    (∀ y m dd : Nat, strptimeYmd (pyStrip s) = some (y, m, dd) →
        get_period d s
          = ({ d with period := some (pyStrip s) }, some ConvState.CONTACT,
             [Msg.promptContact f c a (pyStrip s)])) ∧
    (strptimeYmd (pyStrip s) = none →
        get_period d s = (d, some ConvState.PERIOD, [Msg.retryPeriod])) ∧
    (∀ y m dd : Nat, dateOk y m dd = true →
        get_period d (fmtYmd y m dd)
          = ({ d with period := some (fmtYmd y m dd) }, some ConvState.CONTACT,
             [Msg.promptContact f c a (fmtYmd y m dd)])) := by
  refine ⟨?_, ?_, ?_⟩
  · intro y m dd hp
    simp [get_period, hp, hf, hc, ha]
  · intro hp
    simp [get_period, hp]
  · intro y m dd hdate
    have hb := of_decide_eq_true hdate
    have hd31 : dd ≤ 31 := le_trans hb.2.2.2.2.2 (daysInMonth_le_31 y m)
    have hns : pyStrip (fmtYmd y m dd) = fmtYmd y m dd :=
      pyStrip_eq_self (fmtYmd_no_space y m dd hb.2.1 hb.2.2.2.1 hd31)
    have hsp := strptimeYmd_fmtYmd y m dd hdate
    simp [get_period, hns, hsp, hf, hc, ha]

/-- C2 (amended) witness: the padded input `" 2024-01-15 "` is stripped,
validated, stored, and advances to CONTACT. -/
theorem period_step_amended_witness :
    get_period ⟨some "Famiglia Bianchi", some "Altro", some (10 : ℚ), none⟩
        " 2024-01-15 "
      = (⟨some "Famiglia Bianchi", some "Altro", some (10 : ℚ),
          some "2024-01-15"⟩,
         some ConvState.CONTACT,
         [Msg.promptContact "Famiglia Bianchi" "Altro" (10 : ℚ) "2024-01-15"]) := by
  have h := (period_step_amended
      ⟨some "Famiglia Bianchi", some "Altro", some (10 : ℚ), none⟩
      "Famiglia Bianchi" "Altro" (10 : ℚ) " 2024-01-15 " rfl rfl rfl).1
      2024 1 15 (by rfl)
  rw [show pyStrip " 2024-01-15 " = "2024-01-15" from rfl] at h
  exact h

/-- C3: committing at the CONTACT step inserts exactly one row equal to
the accumulated draft plus the submitter's identity (normalized contact,
user id, username with the `N/A` sentinel), clears the draft, and ends
the conversation. -/
theorem contact_commit_correct (cfg : Option String) (sys : Sys) (f c : String)
    (a : ℚ) (p text : String) (user : UserInfo) (ok : Bool)
    (hconv : sys.conv = some ConvState.CONTACT)
    (hd : sys.draft = ⟨some f, some c, some a, some p⟩) :
    step cfg sys (Incoming.textMsg text user ok)
      = (⟨none, clearedDraft,
          sys.db ++ [⟨sys.db.length + 1, f, c, a, p,
            normalizeContact (pyStrip text), user.id, pyOrNA user.username⟩]⟩,
         send_notification (normalizeContact (pyStrip text)) ok ++
           [Msg.confirm f c a p (normalizeContact (pyStrip text))]) :=
  step_contact_eq cfg sys f c a p text user ok hconv hd

/-- C3 witness: the spec scenario — family `"Famiglia Rossi"`, category
`"Quota Mensile"`, amount `25.50`, period `"2024-01-15"`, contact text
`"mario"` — commits a single row with amount `25.50`, period
`"2024-01-15"` and contact `"@mario"`. -/
theorem contact_commit_correct_witness :
    step none ⟨some ConvState.CONTACT,
        ⟨some "Famiglia Rossi", some "Quota Mensile", some (51 / 2 : ℚ),
          some "2024-01-15"⟩, []⟩
        (Incoming.textMsg "mario" ⟨42, some "luigi"⟩ true)
      = (⟨none, clearedDraft,
          [⟨1, "Famiglia Rossi", "Quota Mensile", (51 / 2 : ℚ), "2024-01-15",
            "@mario", 42, "luigi"⟩]⟩,
         [Msg.notifyContact "@mario",
          Msg.confirm "Famiglia Rossi" "Quota Mensile" (51 / 2 : ℚ) "2024-01-15"
            "@mario"]) := by
  have h := contact_commit_correct none
      ⟨some ConvState.CONTACT,
        ⟨some "Famiglia Rossi", some "Quota Mensile", some (51 / 2 : ℚ),
          some "2024-01-15"⟩, []⟩
      "Famiglia Rossi" "Quota Mensile" (51 / 2 : ℚ) "2024-01-15" "mario"
      ⟨42, some "luigi"⟩ true rfl rfl
  rw [h]
  rw [show normalizeContact (pyStrip "mario") = "@mario" by decide]
  rfl

/-- C4: when the notifier fails, the already-inserted row stays in the
database (no rollback) and the submitting user receives the
delivery-failure warning naming the normalized contact. -/
theorem notifier_failure_preserves_row (cfg : Option String) (sys : Sys)
    (f c : String) (a : ℚ) (p text : String) (user : UserInfo)
    (hconv : sys.conv = some ConvState.CONTACT)
    (hd : sys.draft = ⟨some f, some c, some a, some p⟩) :
    (step cfg sys (Incoming.textMsg text user false)).1.db
        = sys.db ++ [⟨sys.db.length + 1, f, c, a, p,
            normalizeContact (pyStrip text), user.id, pyOrNA user.username⟩] ∧
    Msg.notifyFail (normalizeContact (pyStrip text))
        ∈ (step cfg sys (Incoming.textMsg text user false)).2 := by
  have h := step_contact_eq cfg sys f c a p text user false hconv hd
  rw [h]
  exact ⟨rfl, by simp [send_notification]⟩

/-- C4 witness: with the notifier failing on contact `"@mario"`, the
row is still inserted and the warning naming `"@mario"` is sent. -/
theorem notifier_failure_preserves_row_witness :
    (step none ⟨some ConvState.CONTACT,
        ⟨some "Famiglia Rossi", some "Quota Mensile", some (51 / 2 : ℚ),
          some "2024-01-15"⟩, []⟩
        (Incoming.textMsg "mario" ⟨42, some "luigi"⟩ false)).1.db
      = [⟨1, "Famiglia Rossi", "Quota Mensile", (51 / 2 : ℚ), "2024-01-15",
          "@mario", 42, "luigi"⟩] ∧
    Msg.notifyFail "@mario"
      ∈ (step none ⟨some ConvState.CONTACT,
          ⟨some "Famiglia Rossi", some "Quota Mensile", some (51 / 2 : ℚ),
            some "2024-01-15"⟩, []⟩
          (Incoming.textMsg "mario" ⟨42, some "luigi"⟩ false)).2 := by
  have h := notifier_failure_preserves_row none
      ⟨some ConvState.CONTACT,
        ⟨some "Famiglia Rossi", some "Quota Mensile", some (51 / 2 : ℚ),
          some "2024-01-15"⟩, []⟩
      "Famiglia Rossi" "Quota Mensile" (51 / 2 : ℚ) "2024-01-15" "mario"
      ⟨42, some "luigi"⟩ rfl rfl
  rw [show normalizeContact (pyStrip "mario") = "@mario" by decide] at h
  exact h

/-- C10: in the CONTACT state the handler strips the message and never
checks for emptiness: a whitespace-only message is accepted and commits
a row whose stored contact is the single character `@`. -/
theorem blank_contact_committed (cfg : Option String) (sys : Sys) (f c : String)
    (a : ℚ) (p text : String) (user : UserInfo) (ok : Bool)
    (hconv : sys.conv = some ConvState.CONTACT)
    (hd : sys.draft = ⟨some f, some c, some a, some p⟩)
    (hblank : ∀ ch ∈ text.data, pyIsSpace ch = true) :
    step cfg sys (Incoming.textMsg text user ok)
      = (⟨none, clearedDraft,
          sys.db ++ [⟨sys.db.length + 1, f, c, a, p, "@", user.id,
            pyOrNA user.username⟩]⟩,
         send_notification "@" ok ++ [Msg.confirm f c a p "@"]) := by
  have hnorm : normalizeContact (pyStrip text) = "@" := by
    rw [pyStrip_blank hblank]
    decide
  have h := step_contact_eq cfg sys f c a p text user ok hconv hd
  rw [h, hnorm]
  rfl

/-- C10 witness: the three-space message commits a row with contact
`"@"`. -/
theorem blank_contact_committed_witness :
    step none ⟨some ConvState.CONTACT,
        ⟨some "Famiglia Rossi", some "Quota Mensile", some (51 / 2 : ℚ),
          some "2024-01-15"⟩, []⟩
        (Incoming.textMsg "   " ⟨42, some "luigi"⟩ true)
      = (⟨none, clearedDraft,
          [⟨1, "Famiglia Rossi", "Quota Mensile", (51 / 2 : ℚ), "2024-01-15",
            "@", 42, "luigi"⟩]⟩,
         [Msg.notifyContact "@",
          Msg.confirm "Famiglia Rossi" "Quota Mensile" (51 / 2 : ℚ) "2024-01-15"
            "@"]) := by
  have h := blank_contact_committed none
      ⟨some ConvState.CONTACT,
        ⟨some "Famiglia Rossi", some "Quota Mensile", some (51 / 2 : ℚ),
          some "2024-01-15"⟩, []⟩
      "Famiglia Rossi" "Quota Mensile" (51 / 2 : ℚ) "2024-01-15" "   "
      ⟨42, some "luigi"⟩ true rfl rfl (by decide)
  rw [h]
  rfl

/-- C9: in every reachable state, each stored row is the fully-bound
product of one `INSERT` — in particular the requester-name column always
holds the given username or the `N/A` sentinel, never an empty value —
and row ids are assigned positionally by the store (`i + 1` at index
`i`), hence unique and strictly increasing. -/
theorem store_rows_invariant (cfg : Option String) (s : Sys)
    (h : Reachable cfg s) :
    (∀ i (hi : i < s.db.length), (s.db.get ⟨i, hi⟩).id = i + 1) ∧
    List.Pairwise (fun r1 r2 => r1.id < r2.id) s.db ∧
    (∀ r ∈ s.db, r.username ≠ "") := by
  obtain ⟨h1, h2⟩ := reachable_db_invariant h
  refine ⟨h1, ?_, h2⟩
  rw [List.pairwise_iff_get]
  intro i j hij
  have e1 := h1 i.1 i.2
  have e2 := h1 j.1 j.2
  simp only [Fin.eta] at e1 e2
  have hv : i.1 < j.1 := hij
  omega

/-- A six-update demo run: `/start`, the two keyboard selections, amount
`"25,50"`, period `"2024-01-15"`, contact `"mario"`. -/
def wUser : UserInfo := ⟨42, some "luigi"⟩

def w0 : Sys := ⟨none, clearedDraft, []⟩

def w1 : Sys := (step none w0 (Incoming.startCmd "777")).1

def w2 : Sys := (step none w1 (Incoming.callback "family_Famiglia Rossi")).1

def w3 : Sys := (step none w2 (Incoming.callback "category_Quota Mensile")).1

def w4 : Sys := (step none w3 (Incoming.textMsg "25,50" wUser true)).1

def w5 : Sys := (step none w4 (Incoming.textMsg "2024-01-15" wUser true)).1

def w6 : Sys := (step none w5 (Incoming.textMsg "mario" wUser true)).1

/-- C9 witness: the state reached by the demo run (one committed row)
satisfies the store invariant. -/
theorem store_rows_invariant_witness :
    (∀ i (hi : i < w6.db.length), (w6.db.get ⟨i, hi⟩).id = i + 1) ∧
    List.Pairwise (fun r1 r2 => r1.id < r2.id) w6.db ∧
    (∀ r ∈ w6.db, r.username ≠ "") :=
  store_rows_invariant none w6
    (Reachable.next (Incoming.textMsg "mario" wUser true)
      (Reachable.next (Incoming.textMsg "2024-01-15" wUser true)
        (Reachable.next (Incoming.textMsg "25,50" wUser true)
          (Reachable.next (Incoming.callback "category_Quota Mensile")
            (Reachable.next (Incoming.callback "family_Famiglia Rossi")
              (Reachable.next (Incoming.startCmd "777")
                Reachable.init))))))
